import Mathlib

/-!
Shallow embedding of `src/backend/app/services/scryfall.py` (class
`ScryfallService`) and proofs of the specified properties.

The upstream HTTP API is modelled as an environment `Env` of pure response
functions; each service operation is a pure function taking the environment
and the current service state (the two caches) and returning the outcome
(`Except CardFetchError α`), the new state, and the trace of outbound
requests it issued.  Python dicts are modelled as association lists where
a prepended binding shadows older ones (so lookup sees the latest write,
matching dict assignment).  Python `dict.get(k)` / `dict.get(k, default)`
become `Option` fields with `Option.getD`.

Concurrency note: all network activity of the service is serialized behind
`rate_limit_lock`, a single-slot semaphore, and `asyncio` tasks created by
`batch_fetch_card_data` start in list order and acquire the semaphore in
FIFO order, so the tasks of a batch execute and complete in input order;
the batch operation is therefore embedded as a sequential fold.  The state
returned by a failing batch is the state at the moment the first exception
propagates out of the batch call.
-/

/-- The sub-dict built from `data.get("image_uris", {})`: the three image
URL variants, each possibly absent. -/
structure ImageUris where
  normal : Option String
  border_crop : Option String
  small : Option String
deriving Repr, DecidableEq

/-- The sub-dict `data.get("legalities", {})`, of which only the
`commander` key is read. -/
structure Legalities where
  commander : Option String
deriving Repr, DecidableEq

/-- The JSON payload of a card response, restricted to the keys the code
reads; every key may be absent. -/
structure CardPayload where
  name : Option String
  id : Option String
  image_uris : Option ImageUris
  mana_cost : Option String
  cmc : Option Int
  type_line : Option String
  colors : Option (List String)
  oracle_text : Option String
  keywords : Option (List String)
  legalities : Option Legalities
deriving Repr, DecidableEq

/-- One entry of the rulings payload's `data` array; the code reads
`published_at` and `comment`, each possibly absent. -/
structure RulingEntry where
  published_at : Option String
  comment : Option String
deriving Repr, DecidableEq

/-- The JSON payload of a rulings response: `response.json().get("data", [])`
reads the possibly-absent `data` array. -/
structure RulingsPayload where
  data : Option (List RulingEntry)
deriving Repr, DecidableEq

/-- An HTTP response from the named-card endpoint. -/
structure HttpCardResponse where
  status_code : Nat
  payload : CardPayload
deriving Repr, DecidableEq

/-- An HTTP response from the rulings endpoint. -/
structure HttpRulingsResponse where
  status_code : Nat
  payload : RulingsPayload
deriving Repr, DecidableEq

/-- The remote Scryfall API, modelled as pure response functions.  The
rulings endpoint is keyed by `Option String` because `fetch_full_card`
passes `card_data["id"]`, which may be Python `None`. -/
structure Env where
  cardApi : String → HttpCardResponse
  rulingsApi : Option String → HttpRulingsResponse

/-- The `card_metadata` dict built by `fetch_card_data`.  The `rulings`
field models the `"rulings"` key, absent until `fetch_full_card` assigns
it (`card_data["rulings"] = card_rulings`). -/
structure CardMetadata where
  name : Option String
  id : Option String
  image_url : ImageUris
  mana_cost : Option String
  cmc : Option Int
  type : Option String
  colors : Option (List String)
  oracle_text : Option String
  keywords : Option (List String)
  legality : Option String
  rulings : Option (List String)
deriving Repr, DecidableEq

/-- The mutable state of one `ScryfallService` instance: the two caches.
Association lists; a prepended binding shadows older ones, so `lookup`
returns the latest write, like a Python dict. -/
structure SvcState where
  card_cache : List (String × CardMetadata)
  rulings_cache : List (Option String × List String)
deriving Repr, DecidableEq

/-- `raise CardFetchError(msg)`. -/
structure CardFetchError where
  msg : String
deriving Repr, DecidableEq

/-- One outbound HTTP request, for the request trace. -/
inductive Request where
  | cardReq (name : String)
  | rulingsReq (id : Option String)
deriving Repr, DecidableEq

/-- Outcome of one service operation: the returned value or raised error,
the service state after the call, and the outbound requests issued. -/
structure FetchResult (α : Type) where
  result : Except CardFetchError α
  state : SvcState
  trace : List Request
deriving Repr

/-- Python `str(x)` on an optional string: `None` prints as `"None"`
(relevant in f-strings interpolating `.get` results). -/
def pyStr : Option String → String
  | some s => s
  | none => "None"

/-- The `card_metadata` dict literal of `fetch_card_data`, built from
the response payload with `.get` defaulting throughout. -/
def extract_card_metadata (data : CardPayload) : CardMetadata :=
  { name := data.name
    id := data.id
    image_url :=
      { normal := (data.image_uris.getD ⟨none, none, none⟩).normal
        border_crop := (data.image_uris.getD ⟨none, none, none⟩).border_crop
        small := (data.image_uris.getD ⟨none, none, none⟩).small }
    mana_cost := data.mana_cost
    cmc := data.cmc
    type := data.type_line
    colors := data.colors
    oracle_text := data.oracle_text
    keywords := data.keywords
    legality := (data.legalities.getD ⟨none⟩).commander
    rulings := none }

/-- `ScryfallService.fetch_card_data`: cache hit returns the cached dict
with no request; otherwise one GET, `CardFetchError` on non-200, else
extract the metadata, store it under the original input name, return it. -/
def fetch_card_data (env : Env) (st : SvcState) (card : String) :
    FetchResult CardMetadata :=
  match st.card_cache.lookup card with
  | some v => ⟨.ok v, st, []⟩
  | none =>
      let response := env.cardApi card
      if response.status_code ≠ 200 then
        ⟨.error ⟨"Card '" ++ card ++ "' not found in Scryfall database."⟩,
          st, [.cardReq card]⟩
      else
        let card_metadata := extract_card_metadata response.payload
        ⟨.ok card_metadata,
          { st with card_cache := (card, card_metadata) :: st.card_cache },
          [.cardReq card]⟩

/-- One formatted ruling: `f"[{ruling.get('published_at')}] {ruling.get('comment')}"`. -/
def format_ruling (r : RulingEntry) : String :=
  "[" ++ pyStr r.published_at ++ "] " ++ pyStr r.comment

/-- `ScryfallService.fetch_rulings`: cache hit returns the cached list with
no request; otherwise one GET, `CardFetchError` on non-200, else format
each entry of the (possibly absent, defaulting to empty) `data` array,
store the list under the id, return it. -/
def fetch_rulings (env : Env) (st : SvcState) (card_id : Option String) :
    FetchResult (List String) :=
  match st.rulings_cache.lookup card_id with
  | some v => ⟨.ok v, st, []⟩
  | none =>
      let response := env.rulingsApi card_id
      if response.status_code ≠ 200 then
        ⟨.error ⟨"Card ID '" ++ pyStr card_id ++ "' not found in Scryfall database."⟩,
          st, [.rulingsReq card_id]⟩
      else
        let clean_rulings := (response.payload.data.getD []).map format_ruling
        ⟨.ok clean_rulings,
          { st with rulings_cache := (card_id, clean_rulings) :: st.rulings_cache },
          [.rulingsReq card_id]⟩

/-- `ScryfallService.fetch_full_card`: fetch the card, then its rulings by
`card_data["id"]`, then `card_data["rulings"] = card_rulings`.  That last
assignment mutates the very dict object stored in `_card_cache[card]`
(the cached object and the returned object are aliases), so the cache
entry for `card` gains the rulings as well; the association-list update
models that in-place mutation. -/
def fetch_full_card (env : Env) (st : SvcState) (card : String) :
    FetchResult CardMetadata :=
  let r1 := fetch_card_data env st card
  match r1.result with
  | .error e => ⟨.error e, r1.state, r1.trace⟩
  | .ok card_data =>
      let r2 := fetch_rulings env r1.state card_data.id
      match r2.result with
      | .error e => ⟨.error e, r2.state, r1.trace ++ r2.trace⟩
      | .ok card_rulings =>
          let full := { card_data with rulings := some card_rulings }
          ⟨.ok full,
            { r2.state with card_cache := (card, full) :: r2.state.card_cache },
            r1.trace ++ r2.trace⟩

/-- Sequential execution of the batch's tasks in input order (see the
concurrency note at the top of the file): run `fetch_full_card` per name,
threading the shared state; the first exception propagates out. -/
def batch_fetch_go (env : Env) (st : SvcState) :
    List String → FetchResult (List CardMetadata)
  | [] => ⟨.ok [], st, []⟩
  | c :: rest =>
      let r := fetch_full_card env st c
      match r.result with
      | .error e => ⟨.error e, r.state, r.trace⟩
      | .ok m =>
          let rr := batch_fetch_go env r.state rest
          match rr.result with
          | .error e => ⟨.error e, rr.state, r.trace ++ rr.trace⟩
          | .ok ms => ⟨.ok (m :: ms), rr.state, r.trace ++ rr.trace⟩

/-- `ScryfallService.batch_fetch_card_data`: creates one task per name.
With `progress=False` it awaits `asyncio.gather(*tasks)` (results in task
order, first exception re-raised); with `progress=True` it awaits tasks
via `as_completed`, appending in completion order and advancing a console
progress bar (display only).  Under the single-slot rate limiter the
tasks complete in input order, so both branches reduce to the same
sequential fold. -/
def batch_fetch_card_data (env : Env) (st : SvcState) (cards : List String)
    (progress : Bool) : FetchResult (List CardMetadata) :=
  match progress with
  | false => batch_fetch_go env st cards
  | true => batch_fetch_go env st cards

/-- The service state of a freshly-constructed `ScryfallService`: both
caches empty. -/
def initState : SvcState := ⟨[], []⟩

/-- The state seen by the i-th task of a sequential batch: the list of
intermediate states, one per input name. -/
def runStates (env : Env) (st : SvcState) : List String → List SvcState
  | [] => []
  | c :: rest => st :: runStates env (fetch_full_card env st c).state rest

/-- A record with its `rulings` key removed, for stating which part of a
cached record an operation may change. -/
def stripRulings (m : CardMetadata) : CardMetadata :=
  { m with rulings := none }

/-! ## Concrete environments used for witnesses and counterexamples -/

/-- A fully-populated sample card payload. -/
def boltPayload : CardPayload :=
  { name := some "Lightning Bolt"
    id := some "bolt-id"
    image_uris := some ⟨some "normal.jpg", some "crop.jpg", some "small.jpg"⟩
    mana_cost := some "R"
    cmc := some 1
    type_line := some "Instant"
    colors := some ["R"]
    oracle_text := some "Lightning Bolt deals 3 damage to any target."
    keywords := some []
    legalities := some ⟨some "legal"⟩ }

/-- A sample card payload in which every key is absent. -/
def emptyPayload : CardPayload :=
  ⟨none, none, none, none, none, none, none, none, none, none⟩

/-- A sample ruling entry. -/
def boltRuling : RulingEntry :=
  ⟨some "2021-03-19", some "The damage may be divided as you choose."⟩

/-- A test upstream: `"Lightning Bolt"` resolves (with one ruling under
`"bolt-id"`), any other name or id gets status 404. -/
def envBolt : Env :=
  { cardApi := fun s =>
      if s = "Lightning Bolt" then ⟨200, boltPayload⟩ else ⟨404, emptyPayload⟩
    rulingsApi := fun i =>
      if i = some "bolt-id" then ⟨200, ⟨some [boltRuling]⟩⟩ else ⟨404, ⟨none⟩⟩ }

/-- A test upstream on which every request succeeds: every name resolves to
`boltPayload` and every id has an empty rulings array. -/
def envAllOk : Env :=
  { cardApi := fun _ => ⟨200, boltPayload⟩
    rulingsApi := fun _ => ⟨200, ⟨some []⟩⟩ }

/-- A test upstream on which every request gets status 404. -/
def envAll404 : Env :=
  { cardApi := fun _ => ⟨404, emptyPayload⟩
    rulingsApi := fun _ => ⟨404, ⟨none⟩⟩ }

/-! ## Characterization lemmas for the three single-card operations -/

theorem fetch_card_data_hit (env : Env) (st : SvcState) (card : String)
    (v : CardMetadata) (h : st.card_cache.lookup card = some v) :
    fetch_card_data env st card = ⟨.ok v, st, []⟩ := by
  unfold fetch_card_data
  rw [h]

theorem fetch_card_data_miss_err (env : Env) (st : SvcState) (card : String)
    (h : st.card_cache.lookup card = none)
    (hs : (env.cardApi card).status_code ≠ 200) :
    fetch_card_data env st card =
      ⟨.error ⟨"Card '" ++ card ++ "' not found in Scryfall database."⟩,
        st, [.cardReq card]⟩ := by
  unfold fetch_card_data
  rw [h]
  simp [hs]

theorem fetch_card_data_miss_ok (env : Env) (st : SvcState) (card : String)
    (h : st.card_cache.lookup card = none)
    (hs : (env.cardApi card).status_code = 200) :
    fetch_card_data env st card =
      ⟨.ok (extract_card_metadata (env.cardApi card).payload),
        { st with card_cache :=
            (card, extract_card_metadata (env.cardApi card).payload) :: st.card_cache },
        [.cardReq card]⟩ := by
  unfold fetch_card_data
  rw [h]
  simp [hs]

theorem fetch_rulings_hit (env : Env) (st : SvcState) (card_id : Option String)
    (v : List String) (h : st.rulings_cache.lookup card_id = some v) :
    fetch_rulings env st card_id = ⟨.ok v, st, []⟩ := by
  unfold fetch_rulings
  rw [h]

theorem fetch_rulings_miss_err (env : Env) (st : SvcState) (card_id : Option String)
    (h : st.rulings_cache.lookup card_id = none)
    (hs : (env.rulingsApi card_id).status_code ≠ 200) :
    fetch_rulings env st card_id =
      ⟨.error ⟨"Card ID '" ++ pyStr card_id ++ "' not found in Scryfall database."⟩,
        st, [.rulingsReq card_id]⟩ := by
  unfold fetch_rulings
  rw [h]
  simp [hs]

theorem fetch_rulings_miss_ok (env : Env) (st : SvcState) (card_id : Option String)
    (h : st.rulings_cache.lookup card_id = none)
    (hs : (env.rulingsApi card_id).status_code = 200) :
    fetch_rulings env st card_id =
      ⟨.ok (((env.rulingsApi card_id).payload.data.getD []).map format_ruling),
        { st with rulings_cache :=
            (card_id, ((env.rulingsApi card_id).payload.data.getD []).map format_ruling)
              :: st.rulings_cache },
        [.rulingsReq card_id]⟩ := by
  unfold fetch_rulings
  rw [h]
  simp [hs]

theorem fetch_card_preserves_card_cache (env : Env) (st : SvcState) (card : String)
    (k : String) (v : CardMetadata) (h : st.card_cache.lookup k = some v) :
    (fetch_card_data env st card).state.card_cache.lookup k = some v := by
  rcases hl : st.card_cache.lookup card with _ | w
  · by_cases hs : (env.cardApi card).status_code = 200
    · rw [fetch_card_data_miss_ok env st card hl hs]
      have hne : k ≠ card := fun he => by rw [he, hl] at h; exact Option.noConfusion h
      simp only [List.lookup_cons, beq_false_of_ne hne]
      exact h
    · rw [fetch_card_data_miss_err env st card hl hs]
      exact h
  · rw [fetch_card_data_hit env st card w hl]
    exact h

theorem fetch_card_rulings_cache_eq (env : Env) (st : SvcState) (card : String) :
    (fetch_card_data env st card).state.rulings_cache = st.rulings_cache := by
  rcases hl : st.card_cache.lookup card with _ | w
  · by_cases hs : (env.cardApi card).status_code = 200
    · rw [fetch_card_data_miss_ok env st card hl hs]
    · rw [fetch_card_data_miss_err env st card hl hs]
  · rw [fetch_card_data_hit env st card w hl]

theorem fetch_rulings_card_cache_eq (env : Env) (st : SvcState) (card_id : Option String) :
    (fetch_rulings env st card_id).state.card_cache = st.card_cache := by
  rcases hl : st.rulings_cache.lookup card_id with _ | w
  · by_cases hs : (env.rulingsApi card_id).status_code = 200
    · rw [fetch_rulings_miss_ok env st card_id hl hs]
    · rw [fetch_rulings_miss_err env st card_id hl hs]
  · rw [fetch_rulings_hit env st card_id w hl]

theorem fetch_rulings_preserves_rulings_cache (env : Env) (st : SvcState)
    (card_id : Option String) (k : Option String) (v : List String)
    (h : st.rulings_cache.lookup k = some v) :
    (fetch_rulings env st card_id).state.rulings_cache.lookup k = some v := by
  rcases hl : st.rulings_cache.lookup card_id with _ | w
  · by_cases hs : (env.rulingsApi card_id).status_code = 200
    · rw [fetch_rulings_miss_ok env st card_id hl hs]
      have hne : k ≠ card_id := fun he => by rw [he, hl] at h; exact Option.noConfusion h
      simp only [List.lookup_cons, beq_false_of_ne hne]
      exact h
    · rw [fetch_rulings_miss_err env st card_id hl hs]
      exact h
  · rw [fetch_rulings_hit env st card_id w hl]
    exact h

theorem fetch_card_data_error_cases (env : Env) (st : SvcState) (card : String)
    (e : CardFetchError) (h : (fetch_card_data env st card).result = .error e) :
    fetch_card_data env st card = ⟨.error e, st, [.cardReq card]⟩ ∧
      st.card_cache.lookup card = none ∧ (env.cardApi card).status_code ≠ 200 := by
  rcases hl : st.card_cache.lookup card with _ | w
  · by_cases hs : (env.cardApi card).status_code = 200
    · rw [fetch_card_data_miss_ok env st card hl hs] at h
      exact absurd h (by simp)
    · rw [fetch_card_data_miss_err env st card hl hs] at h ⊢
      obtain rfl : _ = e := Except.error.inj h
      exact ⟨rfl, rfl, hs⟩
  · rw [fetch_card_data_hit env st card w hl] at h
    exact absurd h (by simp)

theorem fetch_card_data_ok_cached (env : Env) (st : SvcState) (card : String)
    (v : CardMetadata) (h : (fetch_card_data env st card).result = .ok v) :
    (fetch_card_data env st card).state.card_cache.lookup card = some v ∧
      (fetch_card_data env st card).trace.length ≤ 1 := by
  rcases hl : st.card_cache.lookup card with _ | w
  · by_cases hs : (env.cardApi card).status_code = 200
    · rw [fetch_card_data_miss_ok env st card hl hs] at h ⊢
      obtain rfl : _ = v := Except.ok.inj h
      exact ⟨List.lookup_cons_self, by simp⟩
    · rw [fetch_card_data_miss_err env st card hl hs] at h
      exact absurd h (by simp)
  · rw [fetch_card_data_hit env st card w hl] at h ⊢
    obtain rfl : _ = v := Except.ok.inj h
    exact ⟨hl, by simp⟩

theorem fetch_rulings_ok_cached (env : Env) (st : SvcState) (card_id : Option String)
    (v : List String) (h : (fetch_rulings env st card_id).result = .ok v) :
    (fetch_rulings env st card_id).state.rulings_cache.lookup card_id = some v ∧
      (fetch_rulings env st card_id).trace.length ≤ 1 := by
  rcases hl : st.rulings_cache.lookup card_id with _ | w
  · by_cases hs : (env.rulingsApi card_id).status_code = 200
    · rw [fetch_rulings_miss_ok env st card_id hl hs] at h ⊢
      obtain rfl : _ = v := Except.ok.inj h
      exact ⟨List.lookup_cons_self, by simp⟩
    · rw [fetch_rulings_miss_err env st card_id hl hs] at h
      exact absurd h (by simp)
  · rw [fetch_rulings_hit env st card_id w hl] at h ⊢
    obtain rfl : _ = v := Except.ok.inj h
    exact ⟨hl, by simp⟩

theorem fetch_full_card_card_err (env : Env) (st : SvcState) (card : String)
    (e : CardFetchError) (st1 : SvcState) (t1 : List Request)
    (h : fetch_card_data env st card = ⟨.error e, st1, t1⟩) :
    fetch_full_card env st card = ⟨.error e, st1, t1⟩ := by
  unfold fetch_full_card
  rw [h]

theorem fetch_full_card_rulings_err (env : Env) (st : SvcState) (card : String)
    (cd : CardMetadata) (st1 : SvcState) (t1 : List Request)
    (e : CardFetchError) (st2 : SvcState) (t2 : List Request)
    (h1 : fetch_card_data env st card = ⟨.ok cd, st1, t1⟩)
    (h2 : fetch_rulings env st1 cd.id = ⟨.error e, st2, t2⟩) :
    fetch_full_card env st card = ⟨.error e, st2, t1 ++ t2⟩ := by
  unfold fetch_full_card
  rw [h1]
  dsimp only
  rw [h2]

theorem fetch_full_card_ok_eq (env : Env) (st : SvcState) (card : String)
    (cd : CardMetadata) (st1 : SvcState) (t1 : List Request)
    (rl : List String) (st2 : SvcState) (t2 : List Request)
    (h1 : fetch_card_data env st card = ⟨.ok cd, st1, t1⟩)
    (h2 : fetch_rulings env st1 cd.id = ⟨.ok rl, st2, t2⟩) :
    fetch_full_card env st card =
      ⟨.ok { cd with rulings := some rl },
        { st2 with card_cache :=
            (card, { cd with rulings := some rl }) :: st2.card_cache },
        t1 ++ t2⟩ := by
  unfold fetch_full_card
  rw [h1]
  dsimp only
  rw [h2]

/-! ## Claims -/

/-- C3: after a successful `fetch_card_data` call for a name, a second call
with exactly the same name string returns the cached record immediately —
same value, unchanged state, empty request trace — so the two calls
together issue at most one network request in total. -/
theorem c3_second_fetch_hits_cache (env : Env) (st : SvcState) (card : String)
    (v : CardMetadata) (h : (fetch_card_data env st card).result = .ok v) :
    fetch_card_data env (fetch_card_data env st card).state card =
      ⟨.ok v, (fetch_card_data env st card).state, []⟩ ∧
    (fetch_card_data env st card).trace.length +
      (fetch_card_data env (fetch_card_data env st card).state card).trace.length ≤ 1 := by
  obtain ⟨hc, ht⟩ := fetch_card_data_ok_cached env st card v h
  have h2 := fetch_card_data_hit env (fetch_card_data env st card).state card v hc
  refine ⟨h2, ?_⟩
  rw [h2]
  simpa using ht

/-- Witness for C3 at a concrete input: fetching `"Lightning Bolt"` against
`envBolt` from the empty cache succeeds, and the second fetch is a pure
cache hit. -/
theorem c3_witness :
    (fetch_card_data envBolt initState "Lightning Bolt").result =
        .ok (extract_card_metadata boltPayload) ∧
    (fetch_card_data envBolt (fetch_card_data envBolt initState "Lightning Bolt").state
        "Lightning Bolt" =
      ⟨.ok (extract_card_metadata boltPayload),
        (fetch_card_data envBolt initState "Lightning Bolt").state, []⟩ ∧
    (fetch_card_data envBolt initState "Lightning Bolt").trace.length +
      (fetch_card_data envBolt (fetch_card_data envBolt initState "Lightning Bolt").state
          "Lightning Bolt").trace.length ≤ 1) :=
  ⟨rfl, c3_second_fetch_hits_cache envBolt initState "Lightning Bolt"
    (extract_card_metadata boltPayload) rfl⟩

/-- C5: if the card lookup inside `fetch_full_card` fails, the whole call
fails with that very error and its trace contains no rulings request (the
rulings endpoint is never contacted); and whenever `fetch_full_card`
returns a record at all, that record has its rulings attached — no partial
record is ever returned. -/
theorem c5_full_card_all_or_error (env : Env) (st : SvcState) (card : String) :
    (∀ e, (fetch_card_data env st card).result = .error e →
      fetch_full_card env st card = ⟨.error e, st, [.cardReq card]⟩ ∧
      ∀ i, Request.rulingsReq i ∉ (fetch_full_card env st card).trace) ∧
    (∀ m, (fetch_full_card env st card).result = .ok m → m.rulings.isSome) := by
  constructor
  · intro e h
    obtain ⟨heq, -, -⟩ := fetch_card_data_error_cases env st card e h
    unfold fetch_full_card
    rw [heq]
    refine ⟨rfl, ?_⟩
    intro i hi
    simp at hi
  · intro m h
    rcases hcd : fetch_card_data env st card with ⟨res1, st1, t1⟩
    rcases res1 with e | cd
    · rw [fetch_full_card_card_err env st card e st1 t1 hcd] at h
      simp at h
    · rcases hrl : fetch_rulings env st1 cd.id with ⟨res2, st2, t2⟩
      rcases res2 with e2 | rl
      · rw [fetch_full_card_rulings_err env st card cd st1 t1 e2 st2 t2 hcd hrl] at h
        simp at h
      · rw [fetch_full_card_ok_eq env st card cd st1 t1 rl st2 t2 hcd hrl] at h
        obtain rfl : _ = m := Except.ok.inj h
        rfl

/-- Witness for C5 at a concrete input: looking up `"Black Lotus"` against
`envBolt` fails, so the full-card call fails identically with no rulings
request; and the successful full fetch of `"Lightning Bolt"` carries its
rulings. -/
theorem c5_witness :
    ((fetch_card_data envBolt initState "Black Lotus").result =
        .error ⟨"Card 'Black Lotus' not found in Scryfall database."⟩ ∧
      fetch_full_card envBolt initState "Black Lotus" =
        ⟨.error ⟨"Card 'Black Lotus' not found in Scryfall database."⟩,
          initState, [.cardReq "Black Lotus"]⟩) ∧
    ((fetch_full_card envBolt initState "Lightning Bolt").result =
        .ok { extract_card_metadata boltPayload with
                rulings := some [format_ruling boltRuling] } ∧
      ({ extract_card_metadata boltPayload with
          rulings := some [format_ruling boltRuling] } : CardMetadata).rulings.isSome) :=
  ⟨⟨rfl, ((c5_full_card_all_or_error envBolt initState "Black Lotus").1
      ⟨"Card 'Black Lotus' not found in Scryfall database."⟩ rfl).1⟩,
    ⟨rfl, (c5_full_card_all_or_error envBolt initState "Lightning Bolt").2
      { extract_card_metadata boltPayload with
          rulings := some [format_ruling boltRuling] } rfl⟩⟩

/-- C10: when a cache miss meets a non-success upstream status, the
operation raises and the service state is unchanged — no cache entry is
created for the queried name or id — so an immediate retry with the same
key issues a fresh network request rather than replaying a cached failure. -/
theorem c10_failures_never_cached (env : Env) (st : SvcState) (card : String)
    (card_id : Option String)
    (hc : st.card_cache.lookup card = none)
    (hcs : (env.cardApi card).status_code ≠ 200)
    (hr : st.rulings_cache.lookup card_id = none)
    (hrs : (env.rulingsApi card_id).status_code ≠ 200) :
    fetch_card_data env st card =
      ⟨.error ⟨"Card '" ++ card ++ "' not found in Scryfall database."⟩,
        st, [.cardReq card]⟩ ∧
    (fetch_card_data env (fetch_card_data env st card).state card).trace =
      [.cardReq card] ∧
    fetch_rulings env st card_id =
      ⟨.error ⟨"Card ID '" ++ pyStr card_id ++ "' not found in Scryfall database."⟩,
        st, [.rulingsReq card_id]⟩ ∧
    (fetch_rulings env (fetch_rulings env st card_id).state card_id).trace =
      [.rulingsReq card_id] := by
  have h1 := fetch_card_data_miss_err env st card hc hcs
  have h2 := fetch_rulings_miss_err env st card_id hr hrs
  refine ⟨h1, ?_, h2, ?_⟩
  · rw [h1]
    rw [h1]
  · rw [h2]
    rw [h2]

/-- Witness for C10 at a concrete input: against the all-404 upstream,
both lookups fail from the empty cache, cache nothing, and retry with a
fresh request. -/
theorem c10_witness :
    (initState.card_cache.lookup "Black Lotus" = none ∧
      (envAll404.cardApi "Black Lotus").status_code ≠ 200 ∧
      initState.rulings_cache.lookup (some "bad-id") = none ∧
      (envAll404.rulingsApi (some "bad-id")).status_code ≠ 200) ∧
    (fetch_card_data envAll404 initState "Black Lotus" =
      ⟨.error ⟨"Card 'Black Lotus' not found in Scryfall database."⟩,
        initState, [.cardReq "Black Lotus"]⟩ ∧
    (fetch_card_data envAll404
        (fetch_card_data envAll404 initState "Black Lotus").state "Black Lotus").trace =
      [.cardReq "Black Lotus"] ∧
    fetch_rulings envAll404 initState (some "bad-id") =
      ⟨.error ⟨"Card ID 'bad-id' not found in Scryfall database."⟩,
        initState, [.rulingsReq (some "bad-id")]⟩ ∧
    (fetch_rulings envAll404
        (fetch_rulings envAll404 initState (some "bad-id")).state (some "bad-id")).trace =
      [.rulingsReq (some "bad-id")]) :=
  ⟨⟨rfl, by decide, rfl, by decide⟩,
    c10_failures_never_cached envAll404 initState "Black Lotus" (some "bad-id")
      rfl (by decide) rfl (by decide)⟩

/-- C4: on a cache miss whose upstream rulings lookup succeeds,
`fetch_rulings` returns exactly one formatted string per upstream ruling
entry — each of the exact form `[date] comment` (bracketed publication
date, a space, then the comment text) — in upstream order; an upstream
response with zero rulings yields the empty list, not an error. -/
theorem c4_rulings_formatting (env : Env) (st : SvcState) (card_id : Option String)
    (h : st.rulings_cache.lookup card_id = none)
    (hs : (env.rulingsApi card_id).status_code = 200) :
    ∃ out, (fetch_rulings env st card_id).result = .ok out ∧
      out.length = ((env.rulingsApi card_id).payload.data.getD []).length ∧
      (∀ (i : Nat) (r : RulingEntry),
        ((env.rulingsApi card_id).payload.data.getD [])[i]? = some r →
        out[i]? = some ("[" ++ pyStr r.published_at ++ "] " ++ pyStr r.comment)) ∧
      ((env.rulingsApi card_id).payload.data.getD [] = [] → out = []) := by
  refine ⟨((env.rulingsApi card_id).payload.data.getD []).map format_ruling,
    ?_, ?_, ?_, ?_⟩
  · rw [fetch_rulings_miss_ok env st card_id h hs]
  · simp
  · intro i r hr
    simp [List.getElem?_map, hr, format_ruling]
  · intro he
    rw [he]
    rfl

/-- Witness for C4 at a concrete input: the uncached id `"bolt-id"` against
`envBolt` yields the single formatted ruling of its upstream entry, and
the all-ok upstream's empty rulings array yields the empty list. -/
theorem c4_witness :
    (initState.rulings_cache.lookup (some "bolt-id") = none ∧
      (envBolt.rulingsApi (some "bolt-id")).status_code = 200) ∧
    (∃ out, (fetch_rulings envBolt initState (some "bolt-id")).result = .ok out ∧
      out.length =
        ((envBolt.rulingsApi (some "bolt-id")).payload.data.getD []).length ∧
      (∀ (i : Nat) (r : RulingEntry),
        ((envBolt.rulingsApi (some "bolt-id")).payload.data.getD [])[i]? = some r →
        out[i]? = some ("[" ++ pyStr r.published_at ++ "] " ++ pyStr r.comment)) ∧
      ((envBolt.rulingsApi (some "bolt-id")).payload.data.getD [] = [] → out = [])) :=
  ⟨⟨rfl, rfl⟩, c4_rulings_formatting envBolt initState (some "bolt-id") rfl rfl⟩

/-- C7: field extraction from a successful card payload is total and maps
every absent payload field to the explicit absent value `none` — never an
implicit zero and never a crash; in particular a payload missing the
whole `image_uris` object still yields a record whose image-URL field is
present with all three variants `none`.  On a cache miss with status 200,
`fetch_card_data` returns exactly this extraction of the response payload. -/
theorem c7_extraction_total_absent_fields (env : Env) (st : SvcState) (card : String)
    (h : st.card_cache.lookup card = none)
    (hs : (env.cardApi card).status_code = 200) :
    (fetch_card_data env st card).result =
      .ok (extract_card_metadata (env.cardApi card).payload) ∧
    ∀ p : CardPayload,
      (p.name = none → (extract_card_metadata p).name = none) ∧
      (p.id = none → (extract_card_metadata p).id = none) ∧
      (p.image_uris = none →
        (extract_card_metadata p).image_url = ⟨none, none, none⟩) ∧
      (p.mana_cost = none → (extract_card_metadata p).mana_cost = none) ∧
      (p.cmc = none → (extract_card_metadata p).cmc = none) ∧
      (p.type_line = none → (extract_card_metadata p).type = none) ∧
      (p.colors = none → (extract_card_metadata p).colors = none) ∧
      (p.oracle_text = none → (extract_card_metadata p).oracle_text = none) ∧
      (p.keywords = none → (extract_card_metadata p).keywords = none) ∧
      (p.legalities = none → (extract_card_metadata p).legality = none) := by
  constructor
  · rw [fetch_card_data_miss_ok env st card h hs]
  · intro p
    refine ⟨?_, ?_, ?_, ?_, ?_, ?_, ?_, ?_, ?_, ?_⟩ <;>
      (intro hp; simp [extract_card_metadata, hp])

/-- Witness for C7 at a concrete input: fetching an uncached name against
an upstream that answers 200 with the all-absent payload produces the
record with every field `none`, including the image-URL field present
with all variants absent. -/
theorem c7_witness :
    (initState.card_cache.lookup "Some Card" = none ∧
      ((Env.mk (fun _ => ⟨200, emptyPayload⟩) (fun _ => ⟨404, ⟨none⟩⟩)).cardApi
          "Some Card").status_code = 200) ∧
    ((fetch_card_data (Env.mk (fun _ => ⟨200, emptyPayload⟩) (fun _ => ⟨404, ⟨none⟩⟩))
        initState "Some Card").result =
      .ok (extract_card_metadata emptyPayload) ∧
      extract_card_metadata emptyPayload =
        ⟨none, none, ⟨none, none, none⟩, none, none, none, none, none, none, none, none⟩) :=
  ⟨⟨rfl, rfl⟩,
    (c7_extraction_total_absent_fields
      (Env.mk (fun _ => ⟨200, emptyPayload⟩) (fun _ => ⟨404, ⟨none⟩⟩))
      initState "Some Card" rfl rfl).1,
    rfl⟩

/-- C6 counterexample: the claim that malformed input is rejected by a
`ValidationError` before any network call is false — calling
`fetch_card_data` with the empty name and `fetch_rulings` with a
malformed id from the empty cache each issue an upstream request, and the
raised error is the upstream-status `CardFetchError`, the only error the
client has. -/
theorem c6_counterexample :
    (fetch_card_data envAll404 initState "").trace = [.cardReq ""] ∧
    (fetch_card_data envAll404 initState "").result =
      .error ⟨"Card '' not found in Scryfall database."⟩ ∧
    (fetch_rulings envAll404 initState (some "not-a-uuid")).trace =
      [.rulingsReq (some "not-a-uuid")] ∧
    (fetch_rulings envAll404 initState (some "not-a-uuid")).result =
      .error ⟨"Card ID 'not-a-uuid' not found in Scryfall database."⟩ :=
  ⟨rfl, rfl, rfl, rfl⟩

/-- C6 (amended): the Fetch Client performs no input validation at all:
every uncached name — the empty string included — and every uncached id —
malformed ones included — always leads to exactly one upstream request;
nothing is rejected before the network call and no validation error type
exists. -/
theorem c6_amended_no_validation (env : Env) (st : SvcState) (card : String)
    (card_id : Option String)
    (hc : st.card_cache.lookup card = none)
    (hr : st.rulings_cache.lookup card_id = none) :
    (fetch_card_data env st card).trace = [.cardReq card] ∧
    (fetch_rulings env st card_id).trace = [.rulingsReq card_id] := by
  constructor
  · by_cases hs : (env.cardApi card).status_code = 200
    · rw [fetch_card_data_miss_ok env st card hc hs]
    · rw [fetch_card_data_miss_err env st card hc hs]
  · by_cases hs : (env.rulingsApi card_id).status_code = 200
    · rw [fetch_rulings_miss_ok env st card_id hr hs]
    · rw [fetch_rulings_miss_err env st card_id hr hs]

/-- Witness for the amended C6 at a concrete input: the empty name and a
malformed id, uncached, each trigger one upstream request. -/
theorem c6_amended_witness :
    (initState.card_cache.lookup "" = none ∧
      initState.rulings_cache.lookup (some "not-a-uuid") = none) ∧
    ((fetch_card_data envAll404 initState "").trace = [.cardReq ""] ∧
      (fetch_rulings envAll404 initState (some "not-a-uuid")).trace =
        [.rulingsReq (some "not-a-uuid")]) :=
  ⟨⟨rfl, rfl⟩, c6_amended_no_validation envAll404 initState "" (some "not-a-uuid") rfl rfl⟩

/-- C1 counterexample: on the §8 scenario — `"Lightning Bolt"` resolving,
`"UnknownCard123"` answered with a non-success status — the batch call
does not return a two-entry result list capturing the failure as a typed
entry: it raises the failing task's `CardFetchError` for the whole
operation. -/
theorem c1_counterexample :
    (batch_fetch_card_data envBolt initState ["Lightning Bolt", "UnknownCard123"]
        false).result =
      .error ⟨"Card 'UnknownCard123' not found in Scryfall database."⟩ := rfl

/-- C1 (amended): a single task's failure is not captured as one entry of
the result list — the whole batch call raises that task's error and no
result list is returned (sibling results are dropped): whenever the first
task fails, `batch_fetch_card_data` propagates exactly its error,
whatever the remaining names. -/
theorem c1_amended_batch_raises (env : Env) (st : SvcState) (c : String)
    (rest : List String) (p : Bool) (e : CardFetchError)
    (h : (fetch_full_card env st c).result = .error e) :
    (batch_fetch_card_data env st (c :: rest) p).result = .error e := by
  rcases hf : fetch_full_card env st c with ⟨res, st1, t1⟩
  rw [hf] at h
  dsimp only at h
  subst h
  cases p <;> (unfold batch_fetch_card_data batch_fetch_go; rw [hf])

/-- Witness for the amended C1 at a concrete input: a batch starting with
the unresolvable `"UnknownCard123"` raises its error even though the
sibling `"Lightning Bolt"` would resolve. -/
theorem c1_amended_witness :
    (fetch_full_card envBolt initState "UnknownCard123").result =
      .error ⟨"Card 'UnknownCard123' not found in Scryfall database."⟩ ∧
    (batch_fetch_card_data envBolt initState ["UnknownCard123", "Lightning Bolt"]
        false).result =
      .error ⟨"Card 'UnknownCard123' not found in Scryfall database."⟩ :=
  ⟨rfl, c1_amended_batch_raises envBolt initState "UnknownCard123" ["Lightning Bolt"]
    false ⟨"Card 'UnknownCard123' not found in Scryfall database."⟩ rfl⟩

theorem fetch_full_card_cache_evolution (env : Env) (st : SvcState) (card : String)
    (k : String) (v : CardMetadata) (h : st.card_cache.lookup k = some v) :
    ∃ v', (fetch_full_card env st card).state.card_cache.lookup k = some v' ∧
      stripRulings v' = stripRulings v ∧ (k ≠ card → v' = v) := by
  rcases hcd : fetch_card_data env st card with ⟨res1, st1, t1⟩
  have hk1 : st1.card_cache.lookup k = some v := by
    have hp := fetch_card_preserves_card_cache env st card k v h
    rw [hcd] at hp
    exact hp
  rcases res1 with e | cd
  · rw [fetch_full_card_card_err env st card e st1 t1 hcd]
    exact ⟨v, hk1, rfl, fun _ => rfl⟩
  · rcases hrl : fetch_rulings env st1 cd.id with ⟨res2, st2, t2⟩
    have hk2 : st2.card_cache.lookup k = some v := by
      have hq := fetch_rulings_card_cache_eq env st1 cd.id
      rw [hrl] at hq
      dsimp only at hq
      rw [hq]
      exact hk1
    rcases res2 with e2 | rl
    · rw [fetch_full_card_rulings_err env st card cd st1 t1 e2 st2 t2 hcd hrl]
      exact ⟨v, hk2, rfl, fun _ => rfl⟩
    · rw [fetch_full_card_ok_eq env st card cd st1 t1 rl st2 t2 hcd hrl]
      by_cases hk : k = card
      · subst hk
        have hhit := fetch_card_data_hit env st k v h
        rw [hcd] at hhit
        have hcdv : cd = v := by
          have := congrArg FetchResult.result hhit
          dsimp only at this
          exact Except.ok.inj this
        subst hcdv
        refine ⟨{ cd with rulings := some rl }, List.lookup_cons_self, rfl, ?_⟩
        intro hne
        exact absurd rfl hne
      · refine ⟨v, ?_, rfl, fun _ => rfl⟩
        simp only [List.lookup_cons, beq_false_of_ne hk]
        exact hk2

/-- C8 counterexample: after `fetch_card_data` populates the name cache
with the rulings-free record for `"Lightning Bolt"`, a `fetch_full_card`
on the very same key updates that populated entry in place — the Python
assignment `card_data["rulings"] = card_rulings` mutates the dict object
held by the cache — so the entry's value changes and the name cache no
longer holds the record without rulings. -/
theorem c8_counterexample :
    ((fetch_card_data envBolt initState "Lightning Bolt").state.card_cache.lookup
        "Lightning Bolt" = some (extract_card_metadata boltPayload)) ∧
    ((fetch_full_card envBolt (fetch_card_data envBolt initState "Lightning Bolt").state
          "Lightning Bolt").state.card_cache.lookup "Lightning Bolt" =
      some { extract_card_metadata boltPayload with
               rulings := some [format_ruling boltRuling] }) ∧
    extract_card_metadata boltPayload ≠
      { extract_card_metadata boltPayload with
          rulings := some [format_ruling boltRuling] } := by
  refine ⟨rfl, rfl, fun h => ?_⟩
  have hr := congrArg CardMetadata.rulings h
  simp [extract_card_metadata] at hr

/-- C8 (amended): a successful `fetch_card_data` stores its record keyed by
the original input name before returning; `fetch_card_data` and
`fetch_rulings` never update or invalidate a populated cache entry; and
`fetch_full_card` preserves every populated name-cache entry except that
it may update the queried name's own entry by attaching rulings — the
rulings-stripped record is unchanged, and entries under other keys are
untouched. -/
theorem c8_amended_cache_invariant (env : Env) (st : SvcState) (card : String)
    (card_id : Option String) (k : String) (v : CardMetadata)
    (hm : st.card_cache.lookup card = none)
    (hs : (env.cardApi card).status_code = 200)
    (hk : st.card_cache.lookup k = some v) :
    (fetch_card_data env st card).state.card_cache.lookup card =
      some (extract_card_metadata (env.cardApi card).payload) ∧
    (fetch_card_data env st card).state.card_cache.lookup k = some v ∧
    (fetch_rulings env st card_id).state.card_cache = st.card_cache ∧
    (∃ v', (fetch_full_card env st card).state.card_cache.lookup k = some v' ∧
      stripRulings v' = stripRulings v ∧ (k ≠ card → v' = v)) :=
  ⟨by rw [fetch_card_data_miss_ok env st card hm hs]; exact List.lookup_cons_self,
    fetch_card_preserves_card_cache env st card k v hk,
    fetch_rulings_card_cache_eq env st card_id,
    fetch_full_card_cache_evolution env st card k v hk⟩

/-- Witness for the amended C8 at a concrete input: with `"Lightning Bolt"`
already cached and the uncached `"Counterspell"` resolving against the
all-ok upstream, the new record is stored under the queried name, the
existing entry survives every operation, and the full fetch leaves other
keys untouched. -/
theorem c8_amended_witness :
    ((fetch_card_data envAllOk initState "Lightning Bolt").state.card_cache.lookup
        "Counterspell" = none ∧
      (envAllOk.cardApi "Counterspell").status_code = 200 ∧
      (fetch_card_data envAllOk initState "Lightning Bolt").state.card_cache.lookup
        "Lightning Bolt" = some (extract_card_metadata boltPayload)) ∧
    ((fetch_card_data envAllOk
        (fetch_card_data envAllOk initState "Lightning Bolt").state
        "Counterspell").state.card_cache.lookup "Counterspell" =
      some (extract_card_metadata (envAllOk.cardApi "Counterspell").payload) ∧
    (fetch_card_data envAllOk
        (fetch_card_data envAllOk initState "Lightning Bolt").state
        "Counterspell").state.card_cache.lookup "Lightning Bolt" =
      some (extract_card_metadata boltPayload) ∧
    (fetch_rulings envAllOk
        (fetch_card_data envAllOk initState "Lightning Bolt").state
        (some "x")).state.card_cache =
      (fetch_card_data envAllOk initState "Lightning Bolt").state.card_cache ∧
    (∃ v', (fetch_full_card envAllOk
        (fetch_card_data envAllOk initState "Lightning Bolt").state
        "Counterspell").state.card_cache.lookup "Lightning Bolt" = some v' ∧
      stripRulings v' = stripRulings (extract_card_metadata boltPayload) ∧
      ("Lightning Bolt" ≠ "Counterspell" → v' = extract_card_metadata boltPayload))) :=
  ⟨⟨rfl, rfl, rfl⟩,
    c8_amended_cache_invariant envAllOk
      (fetch_card_data envAllOk initState "Lightning Bolt").state
      "Counterspell" (some "x") "Lightning Bolt" (extract_card_metadata boltPayload)
      rfl rfl rfl⟩

/-- C2: whenever a `progress = false` batch returns a result list at all,
that list has exactly one entry per input name and is positionally
aligned with the input: the i-th entry is the successful
`fetch_full_card` outcome for the i-th input name (run in the state the
i-th task sees), so the output order matches the input order regardless
of completion order. -/
theorem c2_batch_preserves_input_order (env : Env) (st : SvcState)
    (cards : List String) (l : List CardMetadata)
    (h : (batch_fetch_card_data env st cards false).result = .ok l) :
    l.length = cards.length ∧
    ∀ (i : Nat) (c : String), cards[i]? = some c →
      ∃ (stI : SvcState) (m : CardMetadata),
        (runStates env st cards)[i]? = some stI ∧
        (fetch_full_card env stI c).result = .ok m ∧ l[i]? = some m := by
  induction cards generalizing st l with
  | nil =>
      unfold batch_fetch_card_data batch_fetch_go at h
      obtain rfl : ([] : List CardMetadata) = l := Except.ok.inj h
      exact ⟨rfl, fun i c hc => by simp at hc⟩
  | cons c rest ih =>
      unfold batch_fetch_card_data batch_fetch_go at h
      rcases hf : fetch_full_card env st c with ⟨res1, st1, t1⟩
      rw [hf] at h
      rcases res1 with e | m
      · simp at h
      · dsimp only at h
        rcases hb : batch_fetch_go env st1 rest with ⟨res2, st2, t2⟩
        rw [hb] at h
        rcases res2 with e2 | ms
        · simp at h
        · dsimp only at h
          obtain rfl : m :: ms = l := Except.ok.inj h
          have ihh : (batch_fetch_card_data env st1 rest false).result = .ok ms := by
            unfold batch_fetch_card_data
            rw [hb]
          obtain ⟨hlen, hidx⟩ := ih st1 ms ihh
          refine ⟨by simp [hlen], ?_⟩
          intro i cc hc
          cases i with
          | zero =>
              obtain rfl : c = cc := by simpa using hc
              refine ⟨st, m, ?_, ?_, by simp⟩
              · simp [runStates]
              · rw [hf]
          | succ n =>
              have hc' : rest[n]? = some cc := by simpa using hc
              obtain ⟨stI, mm, h1, h2, h3⟩ := hidx n cc hc'
              refine ⟨stI, mm, ?_, h2, by simpa using h3⟩
              simp only [runStates, hf]
              simpa using h1

/-- Witness for C2 at a concrete input: a two-name batch against the
all-ok upstream succeeds and returns one positionally-aligned record per
input name. -/
theorem c2_witness :
    ((batch_fetch_card_data envAllOk initState ["CardA", "CardB"] false).result =
      .ok [{ extract_card_metadata boltPayload with rulings := some [] },
           { extract_card_metadata boltPayload with rulings := some [] }]) ∧
    (([{ extract_card_metadata boltPayload with rulings := some [] },
        { extract_card_metadata boltPayload with rulings := some [] }] :
          List CardMetadata).length = (["CardA", "CardB"] : List String).length ∧
      ∀ (i : Nat) (c : String), (["CardA", "CardB"] : List String)[i]? = some c →
        ∃ (stI : SvcState) (m : CardMetadata),
          (runStates envAllOk initState ["CardA", "CardB"])[i]? = some stI ∧
          (fetch_full_card envAllOk stI c).result = .ok m ∧
          ([{ extract_card_metadata boltPayload with rulings := some [] },
            { extract_card_metadata boltPayload with rulings := some [] }] :
              List CardMetadata)[i]? = some m) :=
  ⟨rfl, c2_batch_preserves_input_order envAllOk initState ["CardA", "CardB"]
    [{ extract_card_metadata boltPayload with rulings := some [] },
     { extract_card_metadata boltPayload with rulings := some [] }] rfl⟩
